import Mathlib

/-!
Verification of the sse_server repository (src/server.py): a small MCP server
exposing two tools (run_command, hello_world) over an SSE transport.
The Python source is shallowly embedded below; the transport and dispatch
behavior provided by the mcp library (not part of src/) is modelled from the
specification where a claim depends on it.
-/

namespace SseServer

/-- Python string disjunction: `a or b` evaluates to `a` when `a` is truthy
(non-empty), otherwise to `b`. -/
def pyOr (a b : String) : String := if a = "" then b else a

/-- Result of `subprocess.run(command, shell=True, cwd=DEFAULT_WORKSPACE,
capture_output=True, text=True)` when spawning succeeds: the return code and
the captured, text-decoded stdout and stderr (src/server.py lines 59-65). -/
structure CompletedProcess where
  returncode : Int
  stdout : String
  stderr : String
deriving DecidableEq, Repr

/-- Outcome of one attempt to run the shell command: either the process
completed, or some exception was raised during spawning, output capture or
text decoding; the exception carries its `str(e)` rendering. -/
inductive SpawnOutcome where
  | completed : CompletedProcess → SpawnOutcome
  | raised : String → SpawnOutcome
deriving DecidableEq, Repr

/-- `subprocess.run` as a fallible call: the raised case is a Python
exception propagating out of the call. -/
def subprocessRun (o : SpawnOutcome) : Except String CompletedProcess :=
  match o with
  | .completed r => .ok r
  | .raised e => .error e

/-- Body of the `try:` block of `run_command` (src/server.py lines 58-78):
run the process, then `return result.stdout or result.stderr or ""`.
Logging calls do not affect the value. -/
def runCommandTryBody (o : SpawnOutcome) : Except String String := do
  let result ← subprocessRun o
  pure (pyOr (pyOr result.stdout result.stderr) "")

/-- `run_command` (src/server.py lines 50-82): the `except Exception as e:`
clause turns any exception from the body into `str(e)` returned as the tool
result, so the function itself never raises. -/
def run_command (o : SpawnOutcome) : Except String String :=
  match runCommandTryBody o with
  | .ok s => .ok s
  | .error e => .ok e

/-- `hello_world` (src/server.py lines 84-90): returns the literal text. -/
def hello_world : String := "Hello World"

/-- A tool invocation request frame: tool name and argument mapping. -/
structure Request where
  tool : String
  args : List (String × String)
deriving DecidableEq, Repr

/-- Kinds of in-band tool errors. -/
inductive ErrKind where
  | notFound
  | invalidArgument
  | toolRaised
deriving DecidableEq, Repr

/-- A response frame: a success payload or an in-band error description. -/
inductive Response where
  | result : String → Response
  | fail : ErrKind → Response
deriving DecidableEq, Repr

/-- Look up a key in an argument mapping. -/
def getArg : List (String × String) → String → Option String
  | [], _ => none
  | (k, v) :: rest, key => if k = key then some v else getArg rest key

/-- Modelled from the spec: the FastMCP tool-registry dispatch (library code,
not under src/). The registry holds exactly the two tools registered with
`@mcp.tool()` in src/server.py. A known name calls its handler (a missing
`command` argument is an InvalidArgument error; a handler exception becomes an
in-band error); an unknown name yields a NotFound error. `env` gives the
operating-system outcome of running each command string. -/
def dispatch (env : String → SpawnOutcome) (r : Request) : Response :=
  if r.tool = "run_command" then
    match getArg r.args "command" with
    | some cmd =>
      match run_command (env cmd) with
      | .ok s => .result s
      | .error _ => .fail .toolRaised
    | none => .fail .invalidArgument
  else if r.tool = "hello_world" then .result hello_world
  else .fail .notFound

/-- One session's protocol-loop state: whether the stream is open, the
inbound queue of posted requests, and the outbound event stream. -/
structure Session where
  isOpen : Bool
  inbox : List Request
  outbox : List Response
deriving DecidableEq, Repr

/-- Modelled from the spec: one iteration of the per-session protocol loop
(`mcp_server.run` inside handle_sse, src/server.py lines 110-124): read the
next inbound message, dispatch it, append the response to the event stream.
Dispatch never closes the session. -/
def loopStep (env : String → SpawnOutcome) (s : Session) : Session :=
  match s.inbox with
  | [] => s
  | r :: rest => { s with inbox := rest, outbox := s.outbox ++ [dispatch env r] }

/-- Run the protocol loop for `n` iterations. -/
def runLoopN (env : String → SpawnOutcome) : Nat → Session → Session
  | 0, s => s
  | n + 1, s => runLoopN env n (loopStep env s)

/-- The session table of the SSE transport: session identifier to session. -/
def ServerState : Type := List (String × Session)

/-- HTTP-level reply of the message-post endpoint. -/
inductive PostReply where
  | accepted
  | notFound
deriving DecidableEq, Repr

/-- Look up a session by identifier. -/
def lookupSession : String → ServerState → Option Session
  | _, [] => none
  | sid, (k, s) :: rest => if k = sid then some s else lookupSession sid rest

/-- Enqueue a message onto the named session's inbound queue. -/
def enqueueMsg (sid : String) (msg : Request) : ServerState → ServerState
  | [] => []
  | (k, s) :: rest =>
    if k = sid then (k, { s with inbox := s.inbox ++ [msg] }) :: rest
    else (k, s) :: enqueueMsg sid msg rest

/-- Modelled from the spec: `sse.handle_post_message` (library code mounted at
/messages/ in create_starlette_app, src/server.py lines 107-133): look up the
session by the supplied identifier; if absent or closed, reply not-found/gone
with no state change; otherwise enqueue the message and acknowledge. -/
def handle_post_message (sid : String) (msg : Request) (st : ServerState) :
    ServerState × PostReply :=
  match lookupSession sid st with
  | none => (st, .notFound)
  | some s => if s.isOpen then (enqueueMsg sid msg st, .accepted) else (st, .notFound)

/-- Modelled from the spec: closing a session's /sse connection marks the
session closed in the transport's table. -/
def closeSession (sid : String) : ServerState → ServerState
  | [] => []
  | (k, s) :: rest =>
    if k = sid then (k, { s with isOpen := false }) :: closeSession sid rest
    else (k, s) :: closeSession sid rest

/-- `os.path.expanduser` restricted to the forms the source uses: `~` and
`~/...` expand with the user's home directory; anything else is unchanged. -/
def expanduser (home p : String) : String :=
  match p.data with
  | ['~'] => home
  | '~' :: '/' :: rest => home ++ String.mk ('/' :: rest)
  | _ => p

/-- A path is absolute when it starts with the separator. -/
def isAbsoluteB (p : String) : Bool := p.data.head? == some '/'

/-- `os.path.abspath`: an absolute path is returned as is; a relative path is
resolved against the process working directory. -/
def abspath (cwd p : String) : String :=
  if isAbsoluteB p then p else cwd ++ "/" ++ p

/-- `DEFAULT_WORKSPACE = os.path.abspath(os.path.expanduser("~/mcp"))`
(src/server.py line 22), parameterised by the user's home directory and the
process working directory. -/
def DEFAULT_WORKSPACE (home cwd : String) : String :=
  abspath cwd (expanduser home "~/mcp")

/-- `LOG_DIR = os.path.join(DEFAULT_WORKSPACE, "logs")` (src/server.py line 28). -/
def LOG_DIR (home cwd : String) : String := DEFAULT_WORKSPACE home cwd ++ "/logs"

/-- Phase of the process: executing the module top level, or serving. -/
inductive Phase where
  | loading
  | serving
deriving DecidableEq, Repr

/-- Observable process state: the phase, the set of directories that exist
(as a list), and the log of executed commands with their working directory. -/
structure SysState where
  phase : Phase
  dirs : List String
  execs : List (String × String)
deriving DecidableEq, Repr

/-- The process starts loading the module, with nothing created yet. -/
def initState : SysState := ⟨Phase.loading, [], []⟩

/-- Steps of the process. `moduleLoad` is the module top level of
src/server.py run once at startup: `os.makedirs(LOG_DIR, exist_ok=True)`
(line 29) then `os.makedirs(DEFAULT_WORKSPACE, exist_ok=True)` (line 48),
after which the server serves. `execCommand` is one run_command invocation
(src/server.py lines 59-65): it can only happen while serving and spawns the
shell with `cwd=DEFAULT_WORKSPACE`. -/
inductive SysStep (home cwd : String) : SysState → SysState → Prop where
  | moduleLoad {s : SysState} :
      s.phase = Phase.loading →
      SysStep home cwd s
        ⟨Phase.serving, s.dirs ++ [LOG_DIR home cwd, DEFAULT_WORKSPACE home cwd], s.execs⟩
  | execCommand {s : SysState} (cmd : String) :
      s.phase = Phase.serving →
      SysStep home cwd s
        ⟨Phase.serving, s.dirs, s.execs ++ [(cmd, DEFAULT_WORKSPACE home cwd)]⟩

/-- Reachable process states. -/
inductive Reach (home cwd : String) : SysState → Prop where
  | start : Reach home cwd initState
  | step {s s' : SysState} :
      Reach home cwd s → SysStep home cwd s s' → Reach home cwd s'

/-- Parsed command-line configuration (src/server.py lines 146-149). -/
structure CliArgs where
  host : String
  port : Int
deriving DecidableEq, Repr

/-- argparse defaults: `--host` defaults to 0.0.0.0, `--port` to 8081. -/
def defaultArgs : CliArgs := ⟨"0.0.0.0", 8081⟩

/-- Decimal value of a digit character. -/
def digitVal (c : Char) : Option Nat :=
  if '0' ≤ c ∧ c ≤ '9' then some (c.toNat - '0'.toNat) else none

/-- Accumulating decimal parse over a character list. -/
def parseNatFrom : List Char → Nat → Option Nat
  | [], acc => some acc
  | c :: rest, acc =>
    match digitVal c with
    | some d => parseNatFrom rest (acc * 10 + d)
    | none => none

/-- Parse a non-empty decimal digit string. -/
def parseNat : List Char → Option Nat
  | [] => none
  | l => parseNatFrom l 0

/-- Python's `int()` conversion as applied by argparse for `type=int`:
an optional sign followed by decimal digits. -/
def strToInt (s : String) : Option Int :=
  match s.data with
  | '-' :: rest => (parseNat rest).map (fun n => -(n : Int))
  | l => (parseNat l).map (fun n => (n : Int))

/-- Scan of the argument vector by the argparse configuration of
src/server.py lines 146-149: flag-value pairs for `--host` and `--port`
override the accumulated configuration; anything else is a parse error. -/
def parseArgsFrom : List String → CliArgs → Option CliArgs
  | [], acc => some acc
  | a :: v :: rest, acc =>
    if a = "--host" then parseArgsFrom rest ⟨v, acc.port⟩
    else if a = "--port" then
      match strToInt v with
      | some n => parseArgsFrom rest ⟨acc.host, n⟩
      | none => none
    else none
  | _ :: [], _ => none

/-- `parser.parse_args()` on a given argument vector. -/
def parse_args (argv : List String) : Option CliArgs :=
  parseArgsFrom argv defaultArgs

/-! ## Theorems -/

/-- C1: run_command returns the captured stdout when it is non-empty;
otherwise the captured stderr when that is non-empty; otherwise the empty
string. In particular when both are non-empty the stdout text is returned
exactly. -/
theorem run_command_output_precedence (r : CompletedProcess) :
    (r.stdout ≠ "" → run_command (SpawnOutcome.completed r) = Except.ok r.stdout) ∧
    (r.stdout = "" → r.stderr ≠ "" →
      run_command (SpawnOutcome.completed r) = Except.ok r.stderr) ∧
    (r.stdout = "" → r.stderr = "" →
      run_command (SpawnOutcome.completed r) = Except.ok "") := by
  refine ⟨?_, ?_, ?_⟩ <;> intros <;>
    simp_all [run_command, runCommandTryBody, subprocessRun, pyOr]

theorem run_command_output_precedence_witness :
    run_command (SpawnOutcome.completed ⟨0, "out", "err"⟩) = Except.ok "out" ∧
    run_command (SpawnOutcome.completed ⟨1, "", "err"⟩) = Except.ok "err" ∧
    run_command (SpawnOutcome.completed ⟨2, "", ""⟩) = Except.ok "" :=
  ⟨(run_command_output_precedence ⟨0, "out", "err"⟩).1 (by decide),
   (run_command_output_precedence ⟨1, "", "err"⟩).2.1 rfl (by decide),
   (run_command_output_precedence ⟨2, "", ""⟩).2.2 rfl rfl⟩

/-- C2: when spawning the shell process raises an exception, run_command
returns the exception's textual description as an ordinary string result
(never an error), and the dispatch layer surfaces it as a success frame, so
the exception never crosses the transport. -/
theorem spawn_failure_surfaced (e : String) :
    run_command (SpawnOutcome.raised e) = Except.ok e ∧
    ∀ cmd : String,
      dispatch (fun _ => SpawnOutcome.raised e) ⟨"run_command", [("command", cmd)]⟩ =
        Response.result e := by
  constructor
  · rfl
  · intro cmd
    simp [dispatch, getArg, run_command, runCommandTryBody, subprocessRun]

/-- C3: the caller-visible result of run_command does not depend on the
process's return code: two completed executions with equal stdout and equal
stderr give equal results even when their return codes differ. -/
theorem exit_code_noninterference (r₁ r₂ : CompletedProcess)
    (hout : r₁.stdout = r₂.stdout) (herr : r₁.stderr = r₂.stderr) :
    run_command (SpawnOutcome.completed r₁) = run_command (SpawnOutcome.completed r₂) := by
  simp [run_command, runCommandTryBody, subprocessRun, hout, herr]

theorem exit_code_noninterference_witness :
    run_command (SpawnOutcome.completed ⟨0, "a", "b"⟩) =
      run_command (SpawnOutcome.completed ⟨1, "a", "b"⟩) :=
  exit_code_noninterference ⟨0, "a", "b"⟩ ⟨1, "a", "b"⟩ rfl rfl

/-- C4: invoking the hello_world tool returns exactly "Hello World" whatever
argument mapping is supplied. -/
theorem hello_world_ignores_args (env : String → SpawnOutcome)
    (args : List (String × String)) :
    dispatch env ⟨"hello_world", args⟩ = Response.result "Hello World" := by
  simp [dispatch, hello_world]

/-- Helper: while serving, the workspace directory has been created, and every
logged execution used the workspace as its working directory. -/
theorem reach_invariant (home cwd : String) (s : SysState)
    (hr : Reach home cwd s) :
    (s.phase = Phase.serving → DEFAULT_WORKSPACE home cwd ∈ s.dirs) ∧
    (∀ e ∈ s.execs, e.2 = DEFAULT_WORKSPACE home cwd) := by
  induction hr with
  | start => simp [initState]
  | step hr hstep ih =>
    cases hstep with
    | moduleLoad hph =>
      refine ⟨fun _ => ?_, fun e he => ih.2 e he⟩
      simp
    | execCommand cmd hph =>
      refine ⟨fun _ => ih.1 hph, fun e he => ?_⟩
      rcases List.mem_append.mp he with h | h
      · exact ih.2 e h
      · simp at h
        rw [h]

/-- Helper: the expansion of the default workspace path for an absolute home
directory. -/
theorem workspace_resolution (home cwd : String)
    (habs : isAbsoluteB home = true) :
    DEFAULT_WORKSPACE home cwd = home ++ "/mcp" ∧
    isAbsoluteB (DEFAULT_WORKSPACE home cwd) = true := by
  have hexp : expanduser home "~/mcp" = home ++ "/mcp" := rfl
  have hdata : (home ++ "/mcp").data = home.data ++ "/mcp".data := rfl
  have hhead : home.data.head? = some '/' := by
    simpa [isAbsoluteB] using habs
  have habs2 : isAbsoluteB (home ++ "/mcp") = true := by
    unfold isAbsoluteB
    rw [hdata]
    cases hd : home.data with
    | nil => rw [hd] at hhead; simp at hhead
    | cons c tl =>
      rw [hd] at hhead
      simp at hhead
      simp [hhead]
  constructor
  · unfold DEFAULT_WORKSPACE
    rw [hexp]
    unfold abspath
    rw [if_pos habs2]
  · unfold DEFAULT_WORKSPACE
    rw [hexp]
    unfold abspath
    rw [if_pos habs2]
    exact habs2

/-- C5: the workspace path is resolved from the fixed default `~/mcp` to an
absolute directory; every executed command runs with it as working directory;
and any step that executes a command happens from a state in which the
workspace directory already exists (it is created during module load, before
serving begins). -/
theorem every_command_runs_in_workspace (home cwd : String)
    (habs : isAbsoluteB home = true) :
    (DEFAULT_WORKSPACE home cwd = home ++ "/mcp" ∧
      isAbsoluteB (DEFAULT_WORKSPACE home cwd) = true) ∧
    (∀ s : SysState, Reach home cwd s →
      ∀ e ∈ s.execs, e.2 = DEFAULT_WORKSPACE home cwd) ∧
    (∀ (s s' : SysState) (cmd : String), Reach home cwd s →
      SysStep home cwd s s' →
      s'.execs = s.execs ++ [(cmd, DEFAULT_WORKSPACE home cwd)] →
      DEFAULT_WORKSPACE home cwd ∈ s.dirs) := by
  refine ⟨workspace_resolution home cwd habs, ?_, ?_⟩
  · intro s hr e he
    exact (reach_invariant home cwd s hr).2 e he
  · intro s s' cmd hr hstep hex
    cases hstep with
    | moduleLoad hph =>
      exfalso
      have : s.execs.length = (s.execs ++ [(cmd, DEFAULT_WORKSPACE home cwd)]).length := by
        rw [← hex]
      simp at this
    | execCommand cmd' hph =>
      exact (reach_invariant home cwd s hr).1 hph

theorem every_command_runs_in_workspace_witness :
    DEFAULT_WORKSPACE "/root" "/app" = "/root" ++ "/mcp" ∧
    isAbsoluteB (DEFAULT_WORKSPACE "/root" "/app") = true :=
  (every_command_runs_in_workspace "/root" "/app" (by decide)).1

/-- C6: dispatching an invocation whose tool name is not in the registry
yields a NotFound error frame, and the protocol loop appends that error frame
to the event stream while leaving the session open (its isOpen flag is
unchanged) and continuing with the rest of the queue. -/
theorem unknown_tool_not_found (env : String → SpawnOutcome)
    (name : String) (args : List (String × String)) (isOp : Bool)
    (rest : List Request) (out0 : List Response)
    (h1 : name ≠ "run_command") (h2 : name ≠ "hello_world") :
    dispatch env ⟨name, args⟩ = Response.fail ErrKind.notFound ∧
    loopStep env ⟨isOp, ⟨name, args⟩ :: rest, out0⟩ =
      ⟨isOp, rest, out0 ++ [Response.fail ErrKind.notFound]⟩ := by
  constructor
  · simp [dispatch, h1, h2]
  · simp [loopStep, dispatch, h1, h2]

theorem unknown_tool_not_found_witness :
    dispatch (fun _ => SpawnOutcome.raised "e") ⟨"bogus", []⟩ =
      Response.fail ErrKind.notFound ∧
    loopStep (fun _ => SpawnOutcome.raised "e") ⟨true, [⟨"bogus", []⟩], []⟩ =
      ⟨true, [], [Response.fail ErrKind.notFound]⟩ :=
  unknown_tool_not_found (fun _ => SpawnOutcome.raised "e") "bogus" [] true [] []
    (by decide) (by decide)

/-- Helper: looking up a session identifier after closing it finds either
nothing or a session marked closed. -/
theorem lookup_close (sid : String) (st : ServerState) :
    lookupSession sid (closeSession sid st) =
      Option.map (fun s => { s with isOpen := false }) (lookupSession sid st) := by
  induction st with
  | nil => rfl
  | cons kv rest ih =>
    obtain ⟨k, s⟩ := kv
    by_cases h : k = sid
    · simp [closeSession, lookupSession, h]
    · simp [closeSession, lookupSession, h, ih]

/-- C7: after a session's /sse connection is closed, a POST to its message
endpoint replies not-found and leaves the state unchanged; a POST naming a
session identifier with no matching session likewise replies not-found with
no state change. -/
theorem post_after_close_not_found (st : ServerState) (sid : String)
    (msg : Request) :
    (handle_post_message sid msg (closeSession sid st) =
      (closeSession sid st, PostReply.notFound)) ∧
    (lookupSession sid st = none →
      handle_post_message sid msg st = (st, PostReply.notFound)) := by
  constructor
  · unfold handle_post_message
    rw [lookup_close]
    cases h : lookupSession sid st with
    | none => simp
    | some s => simp
  · intro h
    unfold handle_post_message
    rw [h]

theorem post_after_close_not_found_witness :
    (handle_post_message "s1" ⟨"hello_world", []⟩
        (closeSession "s1" [("s1", ⟨true, [], []⟩)]) =
      (closeSession "s1" [("s1", ⟨true, [], []⟩)], PostReply.notFound)) ∧
    (handle_post_message "zz" ⟨"hello_world", []⟩ ([] : ServerState) =
      (([] : ServerState), PostReply.notFound)) :=
  ⟨(post_after_close_not_found [("s1", ⟨true, [], []⟩)] "s1" ⟨"hello_world", []⟩).1,
   (post_after_close_not_found ([] : ServerState) "zz" ⟨"hello_world", []⟩).2 rfl⟩

/-- C8: within one session the protocol loop is sequential: running the loop
over the queued requests leaves the event stream extended by exactly the
dispatch results of those requests, in dispatch order, and the session flag
untouched. -/
theorem responses_in_dispatch_order (env : String → SpawnOutcome)
    (reqs : List Request) (isOp : Bool) (out0 : List Response) :
    runLoopN env reqs.length ⟨isOp, reqs, out0⟩ =
      ⟨isOp, [], out0 ++ reqs.map (dispatch env)⟩ := by
  induction reqs generalizing out0 with
  | nil => simp [runLoopN]
  | cons r rest ih =>
    simp only [List.length_cons, runLoopN, loopStep, List.map_cons]
    rw [ih]
    simp

/-- C9: the bind host defaults to 0.0.0.0 and the bind port to 8081, and both
are settable through the `--host` and `--port` command-line arguments. -/
theorem cli_defaults_and_settable :
    (parse_args [] = some ⟨"0.0.0.0", 8081⟩) ∧
    (∀ (h ps : String) (p : Int), strToInt ps = some p →
      parse_args ["--host", h, "--port", ps] = some ⟨h, p⟩) := by
  constructor
  · rfl
  · intro h ps p hps
    simp [parse_args, parseArgsFrom, hps, defaultArgs]

theorem cli_defaults_and_settable_witness :
    parse_args ["--host", "127.0.0.1", "--port", "9000"] =
      some ⟨"127.0.0.1", 9000⟩ :=
  cli_defaults_and_settable.2 "127.0.0.1" "9000" 9000 (by decide)

/-- C10: run_command is total at its interface: whatever the outcome of the
attempted execution, including any exception raised inside it, it returns
some string and never propagates an exception to its caller. -/
theorem run_command_total (o : SpawnOutcome) :
    ∃ s : String, run_command o = Except.ok s := by
  cases o with
  | completed r => exact ⟨_, rfl⟩
  | raised e => exact ⟨e, rfl⟩

end SseServer
